import Mathlib

/-!
Verification development for the wallet-ledger backend (`src/index.js`).

The embedding below models the Firestore-backed state as a `LedgerState`:
a map from user id to wallet document, the append-only
`wallet_transactions` log (in creation order, which is also the order in
which queries over the log return documents), the `processed_requests`
idempotency records, and the read-only `waste_prices` table.  Each HTTP
handler of the source becomes a pure function from a state and a request
to a response and a successor state; a Firestore `runTransaction` that
throws is modelled by returning the error response together with the
unchanged state (all-or-nothing).  JavaScript numbers are modelled as
rationals, strings as Lean strings (case mapping and whitespace on the
ASCII fragment), absent JSON fields as `Option.none`.
-/

/-! ## String constants used by the source -/

def strEmpty : String := ""

def strCompleted : String := "completed"

def strPending : String := "pending"

def strS : String := "s"

def strPlus : String := "+"

def ccKenya : String := "254"

def strZero : String := "0"

def strSeven : String := "7"

def strOne : String := "1"

def keyReceiver : String := "ReceiverPartyPublicName"

def keyAmount : String := "TransactionAmount"

def telMarker : String := "tel:"

def methodB2C : String := "B2C"

def refundReason : String := "M-Pesa B2C failed"

def detailsCredited : String := "Credited for recycling "

def detailsKgOf : String := "kg of "

/-! ## HTTP responses

Each constant records the status code and the salient body text of the
corresponding `res.status(...).send/json(...)` in `src/index.js`. -/

structure HttpResp where
  status : Nat
  body : String
deriving DecidableEq

def resp400Invalid : HttpResp := { status := 400, body := "Invalid input" }

def resp500UserNotFound : HttpResp := { status := 500, body := "User not found" }

def resp500Insufficient : HttpResp := { status := 500, body := "Insufficient balance" }

def resp200Success : HttpResp := { status := 200, body := "success" }

def resp200B2CInitiated : HttpResp := { status := 200, body := "Wallet deducted. MPESA payout initiated." }

def resp400MissingResult : HttpResp := { status := 400, body := "Missing result data" }

def resp400MissingParams : HttpResp := { status := 400, body := "Missing necessary parameters" }

def resp200NoMatch : HttpResp := { status := 200, body := "No matching transaction found" }

def resp200Processed : HttpResp := { status := 200, body := "B2C result processed" }

def resp500Internal : HttpResp := { status := 500, body := "Internal server error" }

def resp200Already : HttpResp := { status := 200, body := "Already processed" }

def resp400PriceNotFound : HttpResp := { status := 400, body := "Waste price not found" }

def resp200NoUpdate : HttpResp := { status := 200, body := "No update needed" }

/-! ## Data model -/

/-- A `users` collection document.  The source reads every numeric field
with a `.field || 0` default, so a document that lacks a field behaves as
the field being `0`; the model therefore keeps all four numbers total. -/
structure User where
  walletBalance : Rat
  recycledWeight : Rat
  pointsEarned : Rat
  co2Saved : Rat
deriving DecidableEq

inductive TxType where
  | withdraw
  | recycleCredit
  | refund
deriving DecidableEq

inductive TxStatus where
  | pending
  | completed
  | failed
deriving DecidableEq

/-- One entry of the `ResultParameters.ResultParameter` array of an
M-Pesa B2C result callback. -/
structure ResultParameter where
  key : String
  value : String
deriving DecidableEq

/-- The `Result` object of a B2C callback body.  `resultParameters` is
`none` when `Result.ResultParameters` is absent; when present it holds
the `ResultParameter` array. -/
structure MpesaResult where
  resultCode : Int
  resultParameters : Option (List ResultParameter)
deriving DecidableEq

/-- A `wallet_transactions` document.  Fields the source does not set on
a given write default to `none` (absent).  The `timestamp` server value
is not modelled. -/
structure Txn where
  id : Nat
  userId : String
  type : TxType
  amount : Rat
  status : TxStatus
  method : Option String := none
  phone : Option String := none
  relatedRequest : Option String := none
  relatedTo : Option Nat := none
  wasteType : Option String := none
  weight : Option Rat := none
  details : Option String := none
  reason : Option String := none
  mpesaMeta : Option MpesaResult := none
deriving DecidableEq

/-- The Firestore state visible to the four wallet endpoints.  `txns` is
kept in creation order; queries over `wallet_transactions` return their
matches in this order. -/
structure LedgerState where
  users : String → Option User
  txns : List Txn
  nextId : Nat
  processedRequests : List String
  wastePrices : String → Option Rat

def setUser (users : String → Option User) (uid : String) (u : User) :
    String → Option User :=
  fun x => if x = uid then some u else users x

/-- The balance the source reads as `userSnap.data().walletBalance || 0`,
with a missing user document behaving as balance `0` only where the
source itself never dereferences it. -/
def balanceOf (s : LedgerState) (uid : String) : Rat :=
  match s.users uid with
  | none => 0
  | some u => u.walletBalance

/-- The `before`/`after` payloads of `POST /request-completed`; each field
is `none` when absent from the JSON body. -/
structure RequestDoc where
  status : Option String := none
  weight : Option Rat := none
  userId : Option String := none
  wasteType : Option String := none
deriving DecidableEq

/-! ## String helpers of the source -/

/-- Embedding of `normalizeWasteType` (src/index.js:947-952).  The
`!str` guard is the first branch (the empty string is the only falsy
string; non-string inputs are outside this model).  `charAt(0)` /
`slice(1)` are modelled per character on the ASCII fragment. -/
def normalizeWasteType (str : String) : String :=
  if str = strEmpty then strEmpty
  else
    let t := str.trim
    let formatted := (t.take 1).toUpper ++ (t.drop 1).toLower
    if formatted.endsWith strS then formatted else formatted ++ strS

/-- Modelled from the spec: the normalization exactly as §4.4 words it —
trim, capitalize the first letter, lowercase the remainder, and append a
trailing "s" if the result is not already plural-suffixed.  Used only to
compare the source's `normalizeWasteType` against the spec's wording. -/
def specNormalizeWasteType (str : String) : String :=
  let t := str.trim
  let formatted := (t.take 1).toUpper ++ (t.drop 1).toLower
  if formatted.endsWith strS then formatted else formatted ++ strS

def removeWhitespace (s : String) : String :=
  String.mk (s.toList.filter (fun c => !c.isWhitespace))

/-- Embedding of `normalizeKenyanNumber` (src/index.js:487-494);
`replace(/\s+/g, "")` removes every whitespace character. -/
def normalizeKenyanNumber (input : String) : String :=
  let number := removeWhitespace input.trim
  let number := if number.startsWith strPlus then number.drop 1 else number
  if number.startsWith ccKenya && number.length == 12 then number
  else if number.startsWith strZero && number.length == 10 then ccKenya ++ number.drop 1
  else if (number.startsWith strSeven || number.startsWith strOne) && number.length == 9 then
    ccKenya ++ number
  else number

def digitsVal (cs : List Char) : Nat :=
  cs.foldl (fun n c => n * 10 + (c.toNat - 48)) 0

/-- Model of JavaScript `parseFloat` on the decimal fragment: skip
leading whitespace, an optional sign, then the longest
`digits[.digits]` prefix; `none` models `NaN` (which compares unequal to
every number).  Exponent notation and `Infinity` are not modelled — no
caller in the source receives them. -/
def jsParseFloat (v : String) : Option Rat :=
  let cs := v.toList.dropWhile Char.isWhitespace
  let signed : Int × List Char :=
    match cs with
    | c :: rest => if c = '-' then (-1, rest) else if c = '+' then (1, rest) else (1, cs)
    | [] => (1, [])
  let intPart := signed.2.takeWhile Char.isDigit
  let rest := signed.2.dropWhile Char.isDigit
  let fracPart :=
    match rest with
    | c :: r => if c = '.' then r.takeWhile Char.isDigit else []
    | [] => []
  if intPart.isEmpty && fracPart.isEmpty then none
  else
    some ((signed.1 * ((digitsVal intPart : Int) * 10 ^ fracPart.length + digitsVal fracPart) : Int)
      / ((10 : Rat) ^ fracPart.length))

/-- Embedding of `phoneParam.Value.replace(/^tel:/, "")`. -/
def stripTel (v : String) : String :=
  if v.startsWith telMarker then v.drop telMarker.length else v

/-! ## Handlers -/

/-- Embedding of `POST /withdraw` (src/index.js:715-745).  The zod schema
requires a positive `amount`; a failing transaction closure leaves the
state unchanged and surfaces the thrown message as a 500 response. -/
def withdrawHandler (s : LedgerState) (userId : String) (amount : Rat) :
    HttpResp × LedgerState :=
  if amount ≤ 0 then (resp400Invalid, s)
  else
    match s.users userId with
    | none => (resp500UserNotFound, s)
    | some u =>
      if amount > u.walletBalance then (resp500Insufficient, s)
      else
        (resp200Success,
         { s with
             users := setUser s.users userId { u with walletBalance := u.walletBalance - amount },
             txns := s.txns ++ [{ id := s.nextId, userId := userId, type := TxType.withdraw,
                                  amount := -amount, status := TxStatus.completed }],
             nextId := s.nextId + 1 })

/-- Embedding of `POST /b2c` (src/index.js:748-802): same debit as
`/withdraw` but the transaction is logged `pending` with `method: "B2C"`
and the normalized phone; the subsequent payout HTTP call touches no
ledger state. -/
def b2cHandler (s : LedgerState) (userId phone : String) (amount : Rat) :
    HttpResp × LedgerState :=
  if phone.length < 10 ∨ amount ≤ 0 then (resp400Invalid, s)
  else
    match s.users userId with
    | none => (resp500UserNotFound, s)
    | some u =>
      if amount > u.walletBalance then (resp500Insufficient, s)
      else
        (resp200B2CInitiated,
         { s with
             users := setUser s.users userId { u with walletBalance := u.walletBalance - amount },
             txns := s.txns ++ [{ id := s.nextId, userId := userId, type := TxType.withdraw,
                                  amount := -amount, status := TxStatus.pending,
                                  method := some methodB2C,
                                  phone := some (normalizeKenyanNumber phone) }],
             nextId := s.nextId + 1 })

/-- The `where("type","==","Withdraw").where("status","==","pending")
.where("phone","==",phoneNumber)` candidate filter of `POST /b2c/result`. -/
def candPred (phoneNumber : String) (t : Txn) : Bool :=
  t.type == TxType.withdraw && t.status == TxStatus.pending && t.phone == some phoneNumber

/-- The `Math.abs(tx.amount) === callbackAmount` comparison; a `NaN`
callback amount (`none`) matches nothing. -/
def amountMatches (callbackAmount : Option Rat) (t : Txn) : Bool :=
  match callbackAmount with
  | none => false
  | some a => abs t.amount == a

/-- The `t.update(doc.ref, {status: "completed", mpesaMeta: result})` of
the success branch, applied to the document with the matched id. -/
def finalizeTxns (txns : List Txn) (m : Txn) (result : MpesaResult) : List Txn :=
  txns.map (fun t =>
    if t.id == m.id then { t with status := TxStatus.completed, mpesaMeta := some result } else t)

/-- The `t.update(doc.ref, {status: "failed", mpesaMeta: result})` of the
failure branch, applied to the document with the matched id. -/
def failTxns (txns : List Txn) (m : Txn) (result : MpesaResult) : List Txn :=
  txns.map (fun t =>
    if t.id == m.id then { t with status := TxStatus.failed, mpesaMeta := some result } else t)

/-- The refund log entry the failure branch appends (`t.set(refundLogRef, ...)`). -/
def mkRefundTxn (s : LedgerState) (m : Txn) (phoneNumber : String) : Txn :=
  { id := s.nextId, userId := m.userId, type := TxType.refund, amount := abs m.amount,
    status := TxStatus.completed, phone := some phoneNumber, relatedTo := some m.id,
    reason := some refundReason }

/-- Successor state of a successful payout: only the matched log entry's
`status` and `mpesaMeta` change. -/
def finalizeState (s : LedgerState) (result : MpesaResult) (m : Txn) : LedgerState :=
  { s with txns := finalizeTxns s.txns m result }

/-- Successor state of a failed payout: the owner's balance grows by the
absolute amount of the matched debit, the matched entry is marked
`failed`, and a completed Refund entry pointing back at it is appended. -/
def refundState (s : LedgerState) (result : MpesaResult) (phoneNumber : String)
    (m : Txn) (u : User) : LedgerState :=
  { s with
      users := setUser s.users m.userId
        { u with walletBalance := u.walletBalance + abs m.amount },
      txns := failTxns s.txns m result ++ [mkRefundTxn s m phoneNumber],
      nextId := s.nextId + 1 }

/-- The per-match `db.runTransaction` body of `POST /b2c/result`
(src/index.js:837-866): finalize on `ResultCode === 0`, otherwise refund.
The refund closure dereferences the user document without an existence
check, so a missing user rejects the transaction and the catch-all
answers 500 with the ledger untouched. -/
def resolveMatch (s : LedgerState) (result : MpesaResult) (phoneNumber : String) (m : Txn) :
    HttpResp × LedgerState :=
  if result.resultCode == 0 then
    (resp200Processed, finalizeState s result m)
  else
    match s.users m.userId with
    | none => (resp500Internal, s)
    | some u => (resp200Processed, refundState s result phoneNumber m u)

/-- The snapshot-query-and-loop part of `POST /b2c/result`
(src/index.js:822-871): an empty snapshot answers 200 without a change;
otherwise the first candidate whose absolute amount equals the callback
amount is resolved and the loop breaks; no amount match is again a 200
no-op. -/
def handleCallback (s : LedgerState) (result : MpesaResult) (phoneNumber : String)
    (callbackAmount : Option Rat) : HttpResp × LedgerState :=
  if (s.txns.filter (candPred phoneNumber)).isEmpty then (resp200NoMatch, s)
  else
    match (s.txns.filter (candPred phoneNumber)).find? (amountMatches callbackAmount) with
    | none => (resp200Processed, s)
    | some m => resolveMatch s result phoneNumber m

/-- The parameter-extraction part of `POST /b2c/result`
(src/index.js:811-818): both correlation parameters must be present,
otherwise 400 with no action. -/
def handleParams (s : LedgerState) (result : MpesaResult) (params : List ResultParameter) :
    HttpResp × LedgerState :=
  match params.find? (fun p => p.key == keyReceiver),
        params.find? (fun p => p.key == keyAmount) with
  | some phoneParam, some amountParam =>
    handleCallback s result (stripTel phoneParam.value) (jsParseFloat amountParam.value)
  | _, _ => (resp400MissingParams, s)

/-- The envelope check of `POST /b2c/result` (src/index.js:807-810):
a missing `Result.ResultParameters` is rejected with 400. -/
def handleResult (s : LedgerState) (result : MpesaResult) : HttpResp × LedgerState :=
  match result.resultParameters with
  | none => (resp400MissingResult, s)
  | some params => handleParams s result params

/-- Embedding of `POST /b2c/result` (src/index.js:805-875), assembled
from the stages above; a body without a `Result` object is rejected
with 400. -/
def b2cResultHandler (s : LedgerState) (body : Option MpesaResult) :
    HttpResp × LedgerState :=
  match body with
  | none => (resp400MissingResult, s)
  | some result => handleResult s result

/-- Successor state of a successful recycling credit: the wallet and the
three accumulators grow by the fixed policy amounts, a completed
Recycle Credit entry is appended, and the request id joins the
idempotency records. -/
def creditState (s : LedgerState) (userId : String) (weight : Rat)
    (wasteType requestId : String) (pricePerKg : Rat) (u : User) : LedgerState :=
  { s with
      users := setUser s.users userId
        { u with
            walletBalance := u.walletBalance + weight * pricePerKg,
            recycledWeight := u.recycledWeight + weight,
            pointsEarned := u.pointsEarned + weight / 50,
            co2Saved := u.co2Saved + weight * (3 / 2) },
      txns := s.txns ++ [{ id := s.nextId, userId := userId,
                           type := TxType.recycleCredit,
                           amount := weight * pricePerKg,
                           status := TxStatus.completed,
                           wasteType := some (normalizeWasteType wasteType),
                           weight := some weight,
                           relatedRequest := some requestId,
                           details := some (detailsCredited ++ toString weight
                             ++ detailsKgOf ++ normalizeWasteType wasteType) }],
      nextId := s.nextId + 1,
      processedRequests := requestId :: s.processedRequests }

/-- The processed-check / price-lookup / credit-transaction part of
`POST /request-completed` (src/index.js:888-938): the idempotency read
precedes the price lookup, and the credit transaction atomically bumps
the wallet and the accumulators, appends the log entry, and writes the
`processed_requests` record. -/
def creditRequest (s : LedgerState) (userId : String) (weight : Rat)
    (wasteType requestId : String) : HttpResp × LedgerState :=
  if s.processedRequests.contains requestId then (resp200Already, s)
  else
    match s.wastePrices (normalizeWasteType wasteType) with
    | none => (resp400PriceNotFound, s)
    | some pricePerKg =>
      match s.users userId with
      | none => (resp500UserNotFound, s)
      | some u =>
        (resp200Success, creditState s userId weight wasteType requestId pricePerKg u)

/-- The guard clause of `POST /request-completed` (src/index.js:881-887)
once the three `after` fields are present: the source's truthiness tests
make `0` weights and empty strings fall through to "No update needed". -/
def guardedCredit (s : LedgerState) (before after : RequestDoc) (userId : String)
    (weight : Rat) (wasteType requestId : String) : HttpResp × LedgerState :=
  if before.status ≠ some strCompleted ∧ after.status = some strCompleted
      ∧ weight ≠ 0 ∧ userId ≠ strEmpty ∧ wasteType ≠ strEmpty then
    creditRequest s userId weight wasteType requestId
  else (resp200NoUpdate, s)

/-- Embedding of `POST /request-completed` (src/index.js:878-945),
assembled from the stages above; an absent `after.userId`,
`after.weight` or `after.wasteType` is falsy and answers
"No update needed". -/
def requestCompletedHandler (s : LedgerState) (before after : RequestDoc)
    (requestId : String) : HttpResp × LedgerState :=
  match after.userId, after.weight, after.wasteType with
  | some userId, some weight, some wasteType =>
    guardedCredit s before after userId weight wasteType requestId
  | _, _, _ => (resp200NoUpdate, s)

/-! ## Operation sequences -/

/-- One inbound event of the wallet core: a Credit enters through
`/request-completed`, a Debit through `/withdraw` or `/b2c`, and a
Finalize or Refund through the `/b2c/result` callback. -/
inductive WalletOp where
  | withdrawOp (userId : String) (amount : Rat)
  | b2cOp (userId phone : String) (amount : Rat)
  | b2cResultOp (body : Option MpesaResult)
  | requestCompletedOp (before after : RequestDoc) (requestId : String)

def applyOp (s : LedgerState) : WalletOp → LedgerState
  | WalletOp.withdrawOp uid amt => (withdrawHandler s uid amt).2
  | WalletOp.b2cOp uid phone amt => (b2cHandler s uid phone amt).2
  | WalletOp.b2cResultOp body => (b2cResultHandler s body).2
  | WalletOp.requestCompletedOp b a rid => (requestCompletedHandler s b a rid).2

def applyOps (s : LedgerState) (ops : List WalletOp) : LedgerState :=
  ops.foldl applyOp s

/-- Sum of the amounts of all logged transactions of one user,
regardless of status. -/
def txnSumFor (l : List Txn) (uid : String) : Rat :=
  (l.map (fun t => if t.userId = uid then t.amount else 0)).sum

/-- Modelled from the spec: the sum the invariant sentence of §3/§8
claims — `completed` transaction amounts plus reserved (`pending`) debit
amounts of one user. -/
def claimedUserSum (l : List Txn) (uid : String) : Rat :=
  (l.map (fun t =>
    if t.userId = uid ∧ (t.status = TxStatus.completed
        ∨ (t.status = TxStatus.pending ∧ t.amount < 0))
    then t.amount else 0)).sum

/-- Per-user conservation: the balance of every user equals the sum of
that user's logged transaction amounts. -/
def Conserves (s : LedgerState) : Prop :=
  ∀ uid, balanceOf s uid = txnSumFor s.txns uid

/-! ## Ledger-sum helper lemmas -/

theorem txnSumFor_append (l : List Txn) (t : Txn) (uid : String) :
    txnSumFor (l ++ [t]) uid
      = txnSumFor l uid + (if t.userId = uid then t.amount else 0) := by
  unfold txnSumFor
  rw [List.map_append, List.sum_append]
  simp

theorem txnSumFor_map_preserve (l : List Txn) (f : Txn → Txn) (uid : String)
    (hid : ∀ t, (f t).userId = t.userId) (hamt : ∀ t, (f t).amount = t.amount) :
    txnSumFor (l.map f) uid = txnSumFor l uid := by
  unfold txnSumFor
  induction l with
  | nil => rfl
  | cons t l ih =>
    simp only [List.map_cons, List.sum_cons]
    rw [hid, hamt, ih]

theorem txnSumFor_finalizeTxns (l : List Txn) (m : Txn) (r : MpesaResult) (uid : String) :
    txnSumFor (finalizeTxns l m r) uid = txnSumFor l uid := by
  unfold finalizeTxns
  apply txnSumFor_map_preserve <;> intro t <;> split <;> rfl

theorem txnSumFor_failTxns (l : List Txn) (m : Txn) (r : MpesaResult) (uid : String) :
    txnSumFor (failTxns l m r) uid = txnSumFor l uid := by
  unfold failTxns
  apply txnSumFor_map_preserve <;> intro t <;> split <;> rfl

theorem balanceOf_setUser (s : LedgerState) (u0 : String) (u : User) (uid : String) :
    (match setUser s.users u0 u uid with
      | none => (0 : Rat)
      | some v => v.walletBalance)
      = if uid = u0 then u.walletBalance else balanceOf s uid := by
  unfold setUser balanceOf
  by_cases hx : uid = u0 <;> simp [hx]

/-! ## Conservation is preserved by every handler -/

theorem conserves_mutation (s s' : LedgerState) (uid : String) (u u' : User) (tx : Txn)
    (txns0 : List Txn) (h : Conserves s)
    (husr : s.users uid = some u)
    (husers : s'.users = setUser s.users uid u')
    (htxns : s'.txns = txns0 ++ [tx])
    (hsum0 : ∀ x, txnSumFor txns0 x = txnSumFor s.txns x)
    (hdelta : u'.walletBalance = u.walletBalance + tx.amount)
    (htid : tx.userId = uid) :
    Conserves s' := by
  intro x
  unfold balanceOf
  rw [husers, balanceOf_setUser, htxns, txnSumFor_append, hsum0 x, htid]
  by_cases hx : x = uid
  · subst hx
    rw [if_pos rfl, if_pos rfl, hdelta]
    have hb : balanceOf s x = u.walletBalance := by unfold balanceOf; rw [husr]
    rw [← h x, hb]
  · rw [if_neg hx, if_neg (fun e => hx e.symm), add_zero]
    exact h x

theorem conserves_withdrawHandler (s : LedgerState) (uid : String) (amt : Rat)
    (h : Conserves s) : Conserves (withdrawHandler s uid amt).2 := by
  unfold withdrawHandler
  split
  · exact h
  cases husr : s.users uid with
  | none => exact h
  | some u =>
    dsimp only
    split
    · exact h
    exact conserves_mutation s _ uid u _ _ s.txns h husr rfl rfl (fun x => rfl)
      (sub_eq_add_neg u.walletBalance amt) rfl

theorem conserves_b2cHandler (s : LedgerState) (uid phone : String) (amt : Rat)
    (h : Conserves s) : Conserves (b2cHandler s uid phone amt).2 := by
  unfold b2cHandler
  split
  · exact h
  cases husr : s.users uid with
  | none => exact h
  | some u =>
    dsimp only
    split
    · exact h
    exact conserves_mutation s _ uid u _ _ s.txns h husr rfl rfl (fun x => rfl)
      (sub_eq_add_neg u.walletBalance amt) rfl

theorem conserves_resolveMatch (s : LedgerState) (result : MpesaResult)
    (phoneNumber : String) (m : Txn) (h : Conserves s) :
    Conserves (resolveMatch s result phoneNumber m).2 := by
  unfold resolveMatch
  by_cases hrc : (result.resultCode == 0) = true
  · rw [if_pos hrc]
    intro x
    show balanceOf s x = txnSumFor (finalizeTxns s.txns m result) x
    rw [txnSumFor_finalizeTxns]
    exact h x
  · rw [if_neg hrc]
    cases husr : s.users m.userId with
    | none => exact h
    | some u =>
      exact conserves_mutation s _ m.userId u _ _ (failTxns s.txns m result) h husr rfl rfl
        (fun x => txnSumFor_failTxns s.txns m result x) rfl rfl

theorem conserves_handleCallback (s : LedgerState) (result : MpesaResult)
    (phoneNumber : String) (callbackAmount : Option Rat) (h : Conserves s) :
    Conserves (handleCallback s result phoneNumber callbackAmount).2 := by
  unfold handleCallback
  cases hie : (s.txns.filter (candPred phoneNumber)).isEmpty with
  | true => exact h
  | false =>
    cases hfm : (s.txns.filter (candPred phoneNumber)).find? (amountMatches callbackAmount) with
    | none => exact h
    | some m => exact conserves_resolveMatch s result phoneNumber m h

theorem conserves_handleParams (s : LedgerState) (result : MpesaResult)
    (params : List ResultParameter) (h : Conserves s) :
    Conserves (handleParams s result params).2 := by
  unfold handleParams
  cases hfp : params.find? (fun p => p.key == keyReceiver) with
  | none => cases params.find? (fun p => p.key == keyAmount) <;> exact h
  | some phoneParam =>
    cases hfa : params.find? (fun p => p.key == keyAmount) with
    | none => exact h
    | some amountParam =>
      exact conserves_handleCallback s result (stripTel phoneParam.value)
        (jsParseFloat amountParam.value) h

theorem conserves_b2cResultHandler (s : LedgerState) (body : Option MpesaResult)
    (h : Conserves s) : Conserves (b2cResultHandler s body).2 := by
  cases body with
  | none => exact h
  | some result =>
    show Conserves (handleResult s result).2
    unfold handleResult
    cases hrp : result.resultParameters with
    | none => exact h
    | some params => exact conserves_handleParams s result params h

theorem conserves_creditRequest (s : LedgerState) (userId : String) (weight : Rat)
    (wasteType rid : String) (h : Conserves s) :
    Conserves (creditRequest s userId weight wasteType rid).2 := by
  unfold creditRequest
  cases hc : s.processedRequests.contains rid with
  | true => exact h
  | false =>
    cases hpr : s.wastePrices (normalizeWasteType wasteType) with
    | none => exact h
    | some pricePerKg =>
      cases husr : s.users userId with
      | none => exact h
      | some u =>
        exact conserves_mutation s _ userId u _ _ s.txns h husr rfl rfl (fun x => rfl) rfl rfl

theorem conserves_requestCompletedHandler (s : LedgerState) (before after : RequestDoc)
    (rid : String) (h : Conserves s) :
    Conserves (requestCompletedHandler s before after rid).2 := by
  unfold requestCompletedHandler
  cases hu : after.userId with
  | none => exact h
  | some userId =>
    cases hw : after.weight with
    | none => exact h
    | some weight =>
      cases hwt : after.wasteType with
      | none => exact h
      | some wasteType =>
        show Conserves (guardedCredit s before after userId weight wasteType rid).2
        unfold guardedCredit
        split
        · exact conserves_creditRequest s userId weight wasteType rid h
        · exact h

theorem conserves_applyOp (s : LedgerState) (op : WalletOp) (h : Conserves s) :
    Conserves (applyOp s op) := by
  cases op with
  | withdrawOp uid amt => exact conserves_withdrawHandler s uid amt h
  | b2cOp uid phone amt => exact conserves_b2cHandler s uid phone amt h
  | b2cResultOp body => exact conserves_b2cResultHandler s body h
  | requestCompletedOp b a rid => exact conserves_requestCompletedHandler s b a rid h

theorem conserves_applyOps (s : LedgerState) (ops : List WalletOp) (h : Conserves s) :
    Conserves (applyOps s ops) := by
  induction ops generalizing s with
  | nil => exact h
  | cons op rest ih => exact ih (applyOp s op) (conserves_applyOp s op h)

/-! ## Reduction lemmas for the handlers -/

theorem requestCompletedHandler_eq_guarded (s : LedgerState) (before after : RequestDoc)
    (rid userId : String) (weight : Rat) (wasteType : String)
    (hu : after.userId = some userId) (hw : after.weight = some weight)
    (hwt : after.wasteType = some wasteType) :
    requestCompletedHandler s before after rid
      = guardedCredit s before after userId weight wasteType rid := by
  unfold requestCompletedHandler
  rw [hu, hw, hwt]

theorem guardedCredit_eq_credit (s : LedgerState) (before after : RequestDoc)
    (userId : String) (weight : Rat) (wasteType rid : String)
    (hg : before.status ≠ some strCompleted ∧ after.status = some strCompleted
        ∧ weight ≠ 0 ∧ userId ≠ strEmpty ∧ wasteType ≠ strEmpty) :
    guardedCredit s before after userId weight wasteType rid
      = creditRequest s userId weight wasteType rid := by
  unfold guardedCredit
  exact if_pos hg

theorem creditRequest_already (s : LedgerState) (userId : String) (weight : Rat)
    (wasteType rid : String) (hc : s.processedRequests.contains rid = true) :
    creditRequest s userId weight wasteType rid = (resp200Already, s) := by
  unfold creditRequest
  rw [hc]
  rfl

theorem creditRequest_priceNotFound (s : LedgerState) (userId : String) (weight : Rat)
    (wasteType rid : String) (hc : s.processedRequests.contains rid = false)
    (hpr : s.wastePrices (normalizeWasteType wasteType) = none) :
    creditRequest s userId weight wasteType rid = (resp400PriceNotFound, s) := by
  unfold creditRequest
  rw [hc, hpr]
  rfl

theorem creditRequest_success (s : LedgerState) (userId : String) (weight : Rat)
    (wasteType rid : String) (pricePerKg : Rat) (u : User)
    (hc : s.processedRequests.contains rid = false)
    (hpr : s.wastePrices (normalizeWasteType wasteType) = some pricePerKg)
    (husr : s.users userId = some u) :
    creditRequest s userId weight wasteType rid
      = (resp200Success, creditState s userId weight wasteType rid pricePerKg u) := by
  unfold creditRequest
  rw [hc, hpr, husr]
  rfl

theorem b2cResultHandler_eq_callback (s : LedgerState) (result : MpesaResult)
    (params : List ResultParameter) (phoneParam amountParam : ResultParameter)
    (hrp : result.resultParameters = some params)
    (hfp : params.find? (fun p => p.key == keyReceiver) = some phoneParam)
    (hfa : params.find? (fun p => p.key == keyAmount) = some amountParam) :
    b2cResultHandler s (some result)
      = handleCallback s result (stripTel phoneParam.value) (jsParseFloat amountParam.value) := by
  show handleResult s result = _
  unfold handleResult
  rw [hrp]
  show handleParams s result params = _
  unfold handleParams
  rw [hfp, hfa]

theorem handleCallback_eq_resolve (s : LedgerState) (result : MpesaResult)
    (phoneNumber : String) (callbackAmount : Option Rat) (m : Txn)
    (hfm : (s.txns.filter (candPred phoneNumber)).find? (amountMatches callbackAmount)
      = some m) :
    handleCallback s result phoneNumber callbackAmount = resolveMatch s result phoneNumber m := by
  unfold handleCallback
  have hne : (s.txns.filter (candPred phoneNumber)).isEmpty = false := by
    cases hl : s.txns.filter (candPred phoneNumber) with
    | nil => rw [hl] at hfm; simp at hfm
    | cons a l => rfl
  rw [hne, hfm]
  rfl

theorem resolveMatch_success (s : LedgerState) (result : MpesaResult)
    (phoneNumber : String) (m : Txn) (hrc : result.resultCode = 0) :
    resolveMatch s result phoneNumber m = (resp200Processed, finalizeState s result m) := by
  unfold resolveMatch
  rw [if_pos (show (result.resultCode == 0) = true by rw [hrc]; rfl)]

theorem resolveMatch_failure (s : LedgerState) (result : MpesaResult)
    (phoneNumber : String) (m : Txn) (u : User) (hrc : result.resultCode ≠ 0)
    (husr : s.users m.userId = some u) :
    resolveMatch s result phoneNumber m
      = (resp200Processed, refundState s result phoneNumber m u) := by
  unfold resolveMatch
  rw [if_neg (fun hb => hrc (eq_of_beq hb)), husr]

theorem mem_of_ne_finalize (l : List Txn) (m : Txn) (r : MpesaResult) (t : Txn)
    (ht : t ∈ l) (hne : t.id ≠ m.id) : t ∈ finalizeTxns l m r := by
  unfold finalizeTxns
  have h2 : (if t.id == m.id
      then { t with status := TxStatus.completed, mpesaMeta := some r } else t) = t := by
    rw [if_neg (by simpa using hne)]
  exact h2 ▸ List.mem_map_of_mem _ ht

theorem mem_of_ne_fail (l : List Txn) (m : Txn) (r : MpesaResult) (t : Txn)
    (ht : t ∈ l) (hne : t.id ≠ m.id) : t ∈ failTxns l m r := by
  unfold failTxns
  have h2 : (if t.id == m.id
      then { t with status := TxStatus.failed, mpesaMeta := some r } else t) = t := by
    rw [if_neg (by simpa using hne)]
  exact h2 ▸ List.mem_map_of_mem _ ht

theorem map_comp_preserve {β : Type} (l : List Txn) (f : Txn → Txn) (g : Txn → β)
    (h : ∀ a, g (f a) = g a) : (l.map f).map g = l.map g := by
  induction l with
  | nil => rfl
  | cons a l ih =>
    simp only [List.map_cons]
    rw [h, ih]

/-! ## Concrete scenario data -/

def zeroUser : User := { walletBalance := 0, recycledWeight := 0, pointsEarned := 0, co2Saved := 0 }

def exU1 : String := "u1"

def exR1 : String := "r1"

def exPlasticsKey : String := "Plastics"

def exPlasticInput : String := "plastic"

def exPhoneRaw : String := "0712345678"

def exPhoneNorm : String := "254712345678"

def exTelPhone : String := "tel:254712345678"

def exAmount30 : String := "30"

def exAmount200 : String := "200"

/-- Initial state for the conservation scenario: one user with a zero
wallet, an empty log, and a price entry for Plastics. -/
def c1Init : LedgerState :=
  { users := fun x => if x = exU1 then some zeroUser else none,
    txns := [], nextId := 0, processedRequests := [],
    wastePrices := fun ty => if ty = exPlasticsKey then some 5 else none }

def c1Before : RequestDoc := { status := some strPending }

def c1After : RequestDoc :=
  { status := some strCompleted, weight := some 10, userId := some exU1,
    wasteType := some exPlasticInput }

/-- A failed-payout callback body for a 30-unit pending withdrawal. -/
def c1CbBody : MpesaResult :=
  { resultCode := 1,
    resultParameters := some [{ key := keyReceiver, value := exTelPhone },
                              { key := keyAmount, value := exAmount30 }] }

/-- Credit 50, reserve a pending 30 debit, then refund it on a failed
callback. -/
def c1Ops : List WalletOp :=
  [WalletOp.requestCompletedOp c1Before c1After exR1,
   WalletOp.b2cOp exU1 exPhoneRaw 30,
   WalletOp.b2cResultOp (some c1CbBody)]

def ovUser : User := { walletBalance := 5, recycledWeight := 0, pointsEarned := 0, co2Saved := 0 }

/-- A state whose single user holds 5 units, for the overdraft scenario. -/
def ovState : LedgerState :=
  { users := fun x => if x = exU1 then some ovUser else none,
    txns := [], nextId := 0, processedRequests := [],
    wastePrices := fun _ => none }

/-- A state in which request r1 was already processed and the price table
is empty, for the check-ordering scenario. -/
def c4State : LedgerState :=
  { users := fun x => if x = exU1 then some zeroUser else none,
    txns := [], nextId := 0, processedRequests := [exR1],
    wastePrices := fun _ => none }

/-- A state in which nothing was processed and the price table is empty. -/
def c4bState : LedgerState :=
  { users := fun x => if x = exU1 then some zeroUser else none,
    txns := [], nextId := 0, processedRequests := [],
    wastePrices := fun _ => none }

def c6tx100 : Txn :=
  { id := 0, userId := exU1, type := TxType.withdraw, amount := -100,
    status := TxStatus.pending, method := some methodB2C, phone := some exPhoneNorm }

def c6tx200 : Txn :=
  { id := 1, userId := exU1, type := TxType.withdraw, amount := -200,
    status := TxStatus.pending, method := some methodB2C, phone := some exPhoneNorm }

/-- Two pending withdrawals of 100 and 200 for the same phone. -/
def c6State : LedgerState :=
  { users := fun x => if x = exU1 then some zeroUser else none,
    txns := [c6tx100, c6tx200], nextId := 2, processedRequests := [],
    wastePrices := fun _ => none }

def c6Params : List ResultParameter :=
  [{ key := keyReceiver, value := exTelPhone }, { key := keyAmount, value := exAmount200 }]

/-- A successful callback reporting amount 200 for the shared phone. -/
def c6Result : MpesaResult := { resultCode := 0, resultParameters := some c6Params }

/-- The same callback with a failure code. -/
def c9Result : MpesaResult := { resultCode := 1, resultParameters := some c6Params }

def c7tx : Txn :=
  { id := 5, userId := exU1, type := TxType.withdraw, amount := -200,
    status := TxStatus.completed, method := some methodB2C, phone := some exPhoneNorm }

/-- A state whose only withdrawal for the phone is already resolved, so a
late duplicate callback matches nothing. -/
def c7State : LedgerState :=
  { users := fun x => if x = exU1 then some zeroUser else none,
    txns := [c7tx], nextId := 6, processedRequests := [],
    wastePrices := fun _ => none }

/-- A callback body whose `Result` lacks `ResultParameters`. -/
def noParamsResult : MpesaResult := { resultCode := 0, resultParameters := none }

/-! ## Claims -/

theorem c1Init_zero (u : String) : balanceOf c1Init u = 0 := by
  unfold balanceOf c1Init
  by_cases hx : u = exU1 <;> simp [hx, zeroUser]

/-- C1 counterexample: starting from a zero-balance user and an empty
log, Credit 50, then pending-Debit 30, then Refund on a failed callback
leaves the balance at 50 while the completed-plus-pending sum the claim
describes is 80 — the failed-and-refunded debit pair breaks the claimed
identity. -/
theorem conservation_claim_counterexample :
    c1Init.txns = [] ∧ balanceOf c1Init exU1 = 0 ∧
    balanceOf (applyOps c1Init c1Ops) exU1 = 50 ∧
    claimedUserSum (applyOps c1Init c1Ops).txns exU1 = 80 ∧
    balanceOf (applyOps c1Init c1Ops) exU1
      ≠ claimedUserSum (applyOps c1Init c1Ops).txns exU1 := by
  refine ⟨rfl, ?_, ?_, ?_, ?_⟩ <;> with_unfolding_all decide

/-- C1 (amended): for every user and every sequence of Credit, Debit,
Refund and Finalize operations starting from an empty transaction log
and zero balances, the user's walletBalance always equals the sum of the
amounts of ALL of that user's transactions — completed, reserved
(pending) debits, and failed (refunded) debits alike.  A refund both
re-credits the balance and appends a completed Refund entry while the
original debit flips to failed, so only the all-statuses sum matches the
balance. -/
theorem wallet_conservation (init : LedgerState) (ops : List WalletOp) (uid : String)
    (hlog : init.txns = []) (hzero : ∀ u, balanceOf init u = 0) :
    balanceOf (applyOps init ops) uid = txnSumFor (applyOps init ops).txns uid := by
  have hinv : Conserves init := by
    intro x
    rw [hzero x, hlog]
    rfl
  exact conserves_applyOps init ops hinv uid

theorem wallet_conservation_witness :
    balanceOf (applyOps c1Init c1Ops) exU1 = txnSumFor (applyOps c1Init c1Ops).txns exU1 :=
  wallet_conservation c1Init c1Ops exU1 rfl c1Init_zero

/-- C2: a debit of strictly more than the wallet balance — through
`POST /withdraw` or the debit step of `POST /b2c` — fails with the
Insufficient balance error and returns the state unchanged: no balance
mutation and no transaction-log append. -/
theorem debit_rejects_overdraft (s : LedgerState) (uid phone : String) (amt : Rat) (u : User)
    (husr : s.users uid = some u) (hover : amt > u.walletBalance) (hpos : 0 < amt)
    (hphone : 10 ≤ phone.length) :
    withdrawHandler s uid amt = (resp500Insufficient, s) ∧
    b2cHandler s uid phone amt = (resp500Insufficient, s) := by
  have hneg : ¬ (phone.length < 10 ∨ amt ≤ 0) := by
    rintro (hlt | hle)
    · exact (not_lt.mpr hphone) hlt
    · exact (not_le.mpr hpos) hle
  constructor
  · unfold withdrawHandler
    rw [if_neg (not_le.mpr hpos), husr]
    exact if_pos hover
  · unfold b2cHandler
    rw [if_neg hneg, husr]
    exact if_pos hover

theorem debit_rejects_overdraft_witness :
    withdrawHandler ovState exU1 10 = (resp500Insufficient, ovState) ∧
    b2cHandler ovState exU1 exPhoneRaw 10 = (resp500Insufficient, ovState) :=
  debit_rejects_overdraft ovState exU1 exPhoneRaw 10 ovUser
    (by with_unfolding_all decide) (by with_unfolding_all decide)
    (by with_unfolding_all decide) (by with_unfolding_all decide)

/-- C3: when a completion event passes the guard, is not yet processed,
has a priced waste type, and the user exists, the first call applies the
credit (balance grows by weight times pricePerKg) and a second identical
call answers "Already processed" and returns the post-credit state
unchanged — wallet, accumulators, and transaction log included. -/
theorem apply_completion_idempotent (s : LedgerState) (before after : RequestDoc)
    (rid userId : String) (weight : Rat) (wasteType : String) (pricePerKg : Rat) (u : User)
    (hu : after.userId = some userId) (hw : after.weight = some weight)
    (hwt : after.wasteType = some wasteType)
    (hg : before.status ≠ some strCompleted ∧ after.status = some strCompleted
        ∧ weight ≠ 0 ∧ userId ≠ strEmpty ∧ wasteType ≠ strEmpty)
    (hc : s.processedRequests.contains rid = false)
    (hpr : s.wastePrices (normalizeWasteType wasteType) = some pricePerKg)
    (husr : s.users userId = some u) :
    requestCompletedHandler s before after rid
      = (resp200Success, creditState s userId weight wasteType rid pricePerKg u) ∧
    balanceOf (creditState s userId weight wasteType rid pricePerKg u) userId
      = u.walletBalance + weight * pricePerKg ∧
    requestCompletedHandler (creditState s userId weight wasteType rid pricePerKg u)
        before after rid
      = (resp200Already, creditState s userId weight wasteType rid pricePerKg u) := by
  refine ⟨?_, ?_, ?_⟩
  · rw [requestCompletedHandler_eq_guarded s before after rid userId weight wasteType hu hw hwt,
        guardedCredit_eq_credit s before after userId weight wasteType rid hg,
        creditRequest_success s userId weight wasteType rid pricePerKg u hc hpr husr]
  · unfold balanceOf creditState setUser
    simp
  · rw [requestCompletedHandler_eq_guarded _ before after rid userId weight wasteType hu hw hwt,
        guardedCredit_eq_credit _ before after userId weight wasteType rid hg,
        creditRequest_already _ userId weight wasteType rid
          (by show (rid :: s.processedRequests).contains rid = true; simp)]

theorem apply_completion_idempotent_witness :
    requestCompletedHandler c1Init c1Before c1After exR1
      = (resp200Success, creditState c1Init exU1 10 exPlasticInput exR1 5 zeroUser) ∧
    balanceOf (creditState c1Init exU1 10 exPlasticInput exR1 5 zeroUser) exU1
      = zeroUser.walletBalance + 10 * 5 ∧
    requestCompletedHandler (creditState c1Init exU1 10 exPlasticInput exR1 5 zeroUser)
        c1Before c1After exR1
      = (resp200Already, creditState c1Init exU1 10 exPlasticInput exR1 5 zeroUser) :=
  apply_completion_idempotent c1Init c1Before c1After exR1 exU1 10 exPlasticInput 5 zeroUser
    (by with_unfolding_all decide) (by with_unfolding_all decide)
    (by with_unfolding_all decide) (by with_unfolding_all decide)
    (by with_unfolding_all decide) (by with_unfolding_all decide)
    (by with_unfolding_all decide)

/-- C4 counterexample: with the requestId already processed and an empty
price table, the handler answers "Already processed" rather than the
PriceNotFound the claim requires — the idempotency check runs first. -/
theorem check_order_counterexample :
    (requestCompletedHandler c4State c1Before c1After exR1).1 = resp200Already ∧
    (requestCompletedHandler c4State c1Before c1After exR1).1 ≠ resp400PriceNotFound := by
  constructor <;> with_unfolding_all decide

/-- C4 (amended): under the guard, the idempotency check precedes the
price lookup: an already-processed requestId yields AlreadyProcessed
regardless of whether the normalized waste type is priced, and only for
an unprocessed requestId does a missing price yield PriceNotFound; both
outcomes leave the state unchanged. -/
theorem request_completed_check_order (s : LedgerState) (before after : RequestDoc)
    (rid userId : String) (weight : Rat) (wasteType : String)
    (hu : after.userId = some userId) (hw : after.weight = some weight)
    (hwt : after.wasteType = some wasteType)
    (hg : before.status ≠ some strCompleted ∧ after.status = some strCompleted
        ∧ weight ≠ 0 ∧ userId ≠ strEmpty ∧ wasteType ≠ strEmpty) :
    (s.processedRequests.contains rid = true →
      requestCompletedHandler s before after rid = (resp200Already, s)) ∧
    (s.processedRequests.contains rid = false →
      s.wastePrices (normalizeWasteType wasteType) = none →
      requestCompletedHandler s before after rid = (resp400PriceNotFound, s)) := by
  constructor
  · intro hc
    rw [requestCompletedHandler_eq_guarded s before after rid userId weight wasteType hu hw hwt,
        guardedCredit_eq_credit s before after userId weight wasteType rid hg,
        creditRequest_already s userId weight wasteType rid hc]
  · intro hc hpr
    rw [requestCompletedHandler_eq_guarded s before after rid userId weight wasteType hu hw hwt,
        guardedCredit_eq_credit s before after userId weight wasteType rid hg,
        creditRequest_priceNotFound s userId weight wasteType rid hc hpr]

theorem request_completed_check_order_witness :
    requestCompletedHandler c4State c1Before c1After exR1 = (resp200Already, c4State) ∧
    requestCompletedHandler c4bState c1Before c1After exR1 = (resp400PriceNotFound, c4bState) :=
  ⟨(request_completed_check_order c4State c1Before c1After exR1 exU1 10 exPlasticInput
      (by with_unfolding_all decide) (by with_unfolding_all decide)
      (by with_unfolding_all decide) (by with_unfolding_all decide)).1
      (by with_unfolding_all decide),
   (request_completed_check_order c4bState c1Before c1After exR1 exU1 10 exPlasticInput
      (by with_unfolding_all decide) (by with_unfolding_all decide)
      (by with_unfolding_all decide) (by with_unfolding_all decide)).2
      (by with_unfolding_all decide) (by with_unfolding_all decide)⟩

/-- C5 counterexample: on the empty string the source returns the empty
string (its falsy-input guard) while the claimed formula yields "s". -/
theorem normalize_waste_type_counterexample :
    normalizeWasteType strEmpty ≠ specNormalizeWasteType strEmpty ∧
    normalizeWasteType strEmpty = strEmpty ∧
    specNormalizeWasteType strEmpty = strS := by
  refine ⟨?_, ?_, ?_⟩ <;> with_unfolding_all decide

/-- C5 (amended): for every nonempty input string the price-table lookup
key equals the spec's formula — trim, uppercase the first character,
lowercase the remainder, and append a trailing "s" iff the result does
not already end with "s"; the empty string alone is mapped to itself by
the source's falsy-input guard. -/
theorem normalize_waste_type_spec (str : String) (hne : str ≠ strEmpty) :
    normalizeWasteType str = specNormalizeWasteType str := by
  unfold normalizeWasteType specNormalizeWasteType
  rw [if_neg hne]

theorem normalize_waste_type_spec_witness :
    normalizeWasteType exPlasticInput = specNormalizeWasteType exPlasticInput :=
  normalize_waste_type_spec exPlasticInput (by with_unfolding_all decide)

/-- C6: a payout callback resolves at most one transaction — among the
pending Withdraw entries for the callback phone, only the first (in
query order) whose absolute amount equals the callback amount is
resolved; every other transaction survives unchanged, and on a success
code the state is exactly the one-entry finalize update. -/
theorem callback_resolves_first_match_only (s : LedgerState) (result : MpesaResult)
    (params : List ResultParameter) (phoneParam amountParam : ResultParameter) (m : Txn)
    (hrp : result.resultParameters = some params)
    (hfp : params.find? (fun p => p.key == keyReceiver) = some phoneParam)
    (hfa : params.find? (fun p => p.key == keyAmount) = some amountParam)
    (hfm : (s.txns.filter (candPred (stripTel phoneParam.value))).find?
        (amountMatches (jsParseFloat amountParam.value)) = some m) :
    (∀ t ∈ s.txns, t.id ≠ m.id → t ∈ (b2cResultHandler s (some result)).2.txns) ∧
    (result.resultCode = 0 →
      (b2cResultHandler s (some result)).2 = finalizeState s result m) := by
  rw [b2cResultHandler_eq_callback s result params phoneParam amountParam hrp hfp hfa,
      handleCallback_eq_resolve s result (stripTel phoneParam.value)
        (jsParseFloat amountParam.value) m hfm]
  constructor
  · intro t ht hne
    unfold resolveMatch
    by_cases hrc : (result.resultCode == 0) = true
    · rw [if_pos hrc]
      exact mem_of_ne_finalize s.txns m result t ht hne
    · rw [if_neg hrc]
      cases s.users m.userId with
      | none => exact ht
      | some u => exact List.mem_append_left _ (mem_of_ne_fail s.txns m result t ht hne)
  · intro hrc
    rw [resolveMatch_success s result (stripTel phoneParam.value) m hrc]

theorem callback_resolves_first_match_only_witness :
    c6tx100 ∈ (b2cResultHandler c6State (some c6Result)).2.txns ∧
    (b2cResultHandler c6State (some c6Result)).2 = finalizeState c6State c6Result c6tx200 := by
  have h := callback_resolves_first_match_only c6State c6Result c6Params
      (ResultParameter.mk keyReceiver exTelPhone) (ResultParameter.mk keyAmount exAmount200)
      c6tx200 (by with_unfolding_all decide) (by with_unfolding_all decide)
      (by with_unfolding_all decide) (by with_unfolding_all decide)
  exact ⟨h.1 c6tx100 (by with_unfolding_all decide) (by with_unfolding_all decide), h.2 rfl⟩

/-- C7: a well-formed callback whose correlation matches no pending
Withdraw transaction — including late or duplicate callbacks for
already-resolved ones — answers 200 and changes nothing. -/
theorem unmatched_callback_noop (s : LedgerState) (result : MpesaResult)
    (params : List ResultParameter) (phoneParam amountParam : ResultParameter)
    (hrp : result.resultParameters = some params)
    (hfp : params.find? (fun p => p.key == keyReceiver) = some phoneParam)
    (hfa : params.find? (fun p => p.key == keyAmount) = some amountParam)
    (hnone : (s.txns.filter (candPred (stripTel phoneParam.value))).find?
        (amountMatches (jsParseFloat amountParam.value)) = none) :
    (b2cResultHandler s (some result)).1.status = 200 ∧
    (b2cResultHandler s (some result)).2 = s := by
  rw [b2cResultHandler_eq_callback s result params phoneParam amountParam hrp hfp hfa]
  unfold handleCallback
  cases hie : (s.txns.filter (candPred (stripTel phoneParam.value))).isEmpty with
  | true => exact ⟨rfl, rfl⟩
  | false =>
    rw [hnone]
    exact ⟨rfl, rfl⟩

theorem unmatched_callback_noop_witness :
    (b2cResultHandler c7State (some c6Result)).1.status = 200 ∧
    (b2cResultHandler c7State (some c6Result)).2 = c7State :=
  unmatched_callback_noop c7State c6Result c6Params
    (ResultParameter.mk keyReceiver exTelPhone) (ResultParameter.mk keyAmount exAmount200)
    (by with_unfolding_all decide) (by with_unfolding_all decide)
    (by with_unfolding_all decide) (by with_unfolding_all decide)

/-- C8: a callback missing the `Result` envelope, the
`ResultParameters`, the phone parameter, or the amount parameter is
rejected with a 400 response and the state is returned unchanged. -/
theorem malformed_callback_rejected (s : LedgerState) :
    b2cResultHandler s none = (resp400MissingResult, s) ∧
    (∀ result : MpesaResult, result.resultParameters = none →
      b2cResultHandler s (some result) = (resp400MissingResult, s)) ∧
    (∀ (result : MpesaResult) (params : List ResultParameter),
      result.resultParameters = some params →
      params.find? (fun p => p.key == keyReceiver) = none →
      b2cResultHandler s (some result) = (resp400MissingParams, s)) ∧
    (∀ (result : MpesaResult) (params : List ResultParameter),
      result.resultParameters = some params →
      params.find? (fun p => p.key == keyAmount) = none →
      b2cResultHandler s (some result) = (resp400MissingParams, s)) := by
  refine ⟨rfl, ?_, ?_, ?_⟩
  · intro result hrp
    show handleResult s result = _
    unfold handleResult
    rw [hrp]
  · intro result params hrp hfp
    show handleResult s result = _
    unfold handleResult
    rw [hrp]
    show handleParams s result params = _
    unfold handleParams
    rw [hfp]
  · intro result params hrp hfa
    show handleResult s result = _
    unfold handleResult
    rw [hrp]
    show handleParams s result params = _
    unfold handleParams
    rw [hfa]
    cases params.find? (fun p => p.key == keyReceiver) <;> rfl

theorem malformed_callback_rejected_witness :
    b2cResultHandler c6State none = (resp400MissingResult, c6State) ∧
    b2cResultHandler c6State (some noParamsResult) = (resp400MissingResult, c6State) :=
  ⟨(malformed_callback_rejected c6State).1,
   (malformed_callback_rejected c6State).2.1 noParamsResult rfl⟩

/-- C9: when the matched callback reports failure, the refund is one
atomic update: the owner's balance grows by the absolute amount of the
original pending debit, the original entry is marked failed, and a
completed Refund entry is appended whose `relatedTo` points at the
original and whose amount equals the refunded sum. -/
theorem failed_callback_refund (s : LedgerState) (result : MpesaResult)
    (params : List ResultParameter) (phoneParam amountParam : ResultParameter)
    (m : Txn) (u : User)
    (hrp : result.resultParameters = some params)
    (hfp : params.find? (fun p => p.key == keyReceiver) = some phoneParam)
    (hfa : params.find? (fun p => p.key == keyAmount) = some amountParam)
    (hfm : (s.txns.filter (candPred (stripTel phoneParam.value))).find?
        (amountMatches (jsParseFloat amountParam.value)) = some m)
    (hrc : result.resultCode ≠ 0)
    (husr : s.users m.userId = some u) :
    b2cResultHandler s (some result)
      = (resp200Processed, refundState s result (stripTel phoneParam.value) m u) ∧
    balanceOf (refundState s result (stripTel phoneParam.value) m u) m.userId
      = u.walletBalance + abs m.amount ∧
    { m with status := TxStatus.failed, mpesaMeta := some result }
      ∈ (refundState s result (stripTel phoneParam.value) m u).txns ∧
    mkRefundTxn s m (stripTel phoneParam.value)
      ∈ (refundState s result (stripTel phoneParam.value) m u).txns ∧
    (mkRefundTxn s m (stripTel phoneParam.value)).type = TxType.refund ∧
    (mkRefundTxn s m (stripTel phoneParam.value)).status = TxStatus.completed ∧
    (mkRefundTxn s m (stripTel phoneParam.value)).relatedTo = some m.id ∧
    (mkRefundTxn s m (stripTel phoneParam.value)).amount = abs m.amount := by
  refine ⟨?_, ?_, ?_, ?_, rfl, rfl, rfl, rfl⟩
  · rw [b2cResultHandler_eq_callback s result params phoneParam amountParam hrp hfp hfa,
        handleCallback_eq_resolve s result (stripTel phoneParam.value)
          (jsParseFloat amountParam.value) m hfm,
        resolveMatch_failure s result (stripTel phoneParam.value) m u hrc husr]
  · unfold balanceOf refundState setUser
    simp
  · have hmem : m ∈ s.txns := List.mem_of_mem_filter (List.mem_of_find?_eq_some hfm)
    have h2 : (if m.id == m.id
          then { m with status := TxStatus.failed, mpesaMeta := some result } else m)
        = { m with status := TxStatus.failed, mpesaMeta := some result } := if_pos (by simp)
    exact List.mem_append_left _ (h2 ▸ List.mem_map_of_mem _ hmem)
  · exact List.mem_append_right _ (by simp)

theorem failed_callback_refund_witness :
    b2cResultHandler c6State (some c9Result)
      = (resp200Processed,
         refundState c6State c9Result
           (stripTel (ResultParameter.mk keyReceiver exTelPhone).value) c6tx200 zeroUser) ∧
    balanceOf (refundState c6State c9Result
        (stripTel (ResultParameter.mk keyReceiver exTelPhone).value) c6tx200 zeroUser)
        c6tx200.userId
      = zeroUser.walletBalance + abs c6tx200.amount := by
  have h := failed_callback_refund c6State c9Result c6Params
      (ResultParameter.mk keyReceiver exTelPhone) (ResultParameter.mk keyAmount exAmount200)
      c6tx200 zeroUser (by with_unfolding_all decide) (by with_unfolding_all decide)
      (by with_unfolding_all decide) (by with_unfolding_all decide)
      (by with_unfolding_all decide) (by with_unfolding_all decide)
  exact ⟨h.1, h.2.1⟩

/-- C10: when the matched callback reports success, only the matched
transaction's `status` and `mpesaMeta` change — the user map (hence
every walletBalance) is untouched, every transaction keeps its amount,
userId and type, and every other transaction survives verbatim. -/
theorem finalize_frame (s : LedgerState) (result : MpesaResult)
    (params : List ResultParameter) (phoneParam amountParam : ResultParameter) (m : Txn)
    (hrp : result.resultParameters = some params)
    (hfp : params.find? (fun p => p.key == keyReceiver) = some phoneParam)
    (hfa : params.find? (fun p => p.key == keyAmount) = some amountParam)
    (hfm : (s.txns.filter (candPred (stripTel phoneParam.value))).find?
        (amountMatches (jsParseFloat amountParam.value)) = some m)
    (hrc : result.resultCode = 0) :
    b2cResultHandler s (some result) = (resp200Processed, finalizeState s result m) ∧
    (finalizeState s result m).users = s.users ∧
    (finalizeState s result m).txns.map Txn.amount = s.txns.map Txn.amount ∧
    (finalizeState s result m).txns.map Txn.userId = s.txns.map Txn.userId ∧
    (finalizeState s result m).txns.map Txn.type = s.txns.map Txn.type ∧
    (∀ t ∈ s.txns, t.id ≠ m.id → t ∈ (finalizeState s result m).txns) ∧
    { m with status := TxStatus.completed, mpesaMeta := some result }
      ∈ (finalizeState s result m).txns := by
  refine ⟨?_, rfl, ?_, ?_, ?_, ?_, ?_⟩
  · rw [b2cResultHandler_eq_callback s result params phoneParam amountParam hrp hfp hfa,
        handleCallback_eq_resolve s result (stripTel phoneParam.value)
          (jsParseFloat amountParam.value) m hfm,
        resolveMatch_success s result (stripTel phoneParam.value) m hrc]
  · exact map_comp_preserve s.txns _ Txn.amount (fun a => by split <;> rfl)
  · exact map_comp_preserve s.txns _ Txn.userId (fun a => by split <;> rfl)
  · exact map_comp_preserve s.txns _ Txn.type (fun a => by split <;> rfl)
  · intro t ht hne
    exact mem_of_ne_finalize s.txns m result t ht hne
  · have hmem : m ∈ s.txns := List.mem_of_mem_filter (List.mem_of_find?_eq_some hfm)
    have h2 : (if m.id == m.id
          then { m with status := TxStatus.completed, mpesaMeta := some result } else m)
        = { m with status := TxStatus.completed, mpesaMeta := some result } := if_pos (by simp)
    exact h2 ▸ List.mem_map_of_mem _ hmem

theorem finalize_frame_witness :
    b2cResultHandler c6State (some c6Result)
      = (resp200Processed, finalizeState c6State c6Result c6tx200) ∧
    (finalizeState c6State c6Result c6tx200).users = c6State.users := by
  have h := finalize_frame c6State c6Result c6Params
      (ResultParameter.mk keyReceiver exTelPhone) (ResultParameter.mk keyAmount exAmount200)
      c6tx200 (by with_unfolding_all decide) (by with_unfolding_all decide)
      (by with_unfolding_all decide) (by with_unfolding_all decide) rfl
  exact ⟨h.1, h.2.1⟩
